import Mathlib

/-!
Shallow embedding of the StockSense risk-prediction pipeline
(`src/stocksense/src/predictor.py` and `src/stocksense/src/model.py`).

Numeric cells are modelled as rationals; a pandas/NumPy NaN cell is modelled
as `none` in an `Option ℚ`.  Fallible operations return `Except`.
-/

namespace StockSense

/-- Risk categorization, from `StockSensePredictor._categorize_risk`:
`risk_score < 0.3` gives Low Risk, `< 0.7` Medium Risk, else High Risk. -/
def categorizeRisk (risk_score : ℚ) : String :=
  if risk_score < 0.3 then "Low Risk"
  else if risk_score < 0.7 then "Medium Risk"
  else "High Risk"

/-- Heuristic stock-days, from the fallback branch of
`StockSensePredictor.predict_single_product` (line 148) and
`predict_batch` (line 203): `current_stock / max(avg_daily_demand, 1)`. -/
def fallbackStockDays (current_stock avg_daily_demand : ℚ) : ℚ :=
  current_stock / max avg_daily_demand 1

/-- Heuristic risk score, from the fallback branches (predictor.py lines
151 and 206): `max(0, min(1, 1 - (stock_days / (lead_time * 2))))`. -/
def fallbackRiskScore (current_stock avg_daily_demand supplier_lead_time : ℚ) : ℚ :=
  max 0 (min 1 (1 - fallbackStockDays current_stock avg_daily_demand / (supplier_lead_time * 2)))

/-- Heuristic high-risk label, from predictor.py lines 152 and 208:
`1 if risk_score > 0.5 else 0`. -/
def fallbackPrediction (risk_score : ℚ) : ℕ :=
  if risk_score > 0.5 then 1 else 0

/-- One row of the inventory table handed to `predict_batch`, restricted to
the numeric fields the fallback heuristic and the dashboard read. -/
structure ProductRow where
  product_id : String
  current_stock : ℚ
  avg_daily_demand : ℚ
  supplier_lead_time : ℚ
  minimum_stock_level : ℚ
deriving DecidableEq, Repr

/-- One output record of `predict_batch`: the input row augmented with
`risk_score`, `risk_prediction`, `risk_level`, `risk_category`
(predictor.py lines 211-215; the timestamp column is not modelled). -/
structure Assessment where
  product_id : String
  current_stock : ℚ
  avg_daily_demand : ℚ
  minimum_stock_level : ℚ
  risk_score : ℚ
  risk_prediction : ℕ
  risk_level : String
  risk_category : String
deriving DecidableEq, Repr

/-- Assessment of one row on the fallback path of `predict_batch`
(predictor.py lines 202-215). -/
def assessRowFallback (r : ProductRow) : Assessment :=
  let score := fallbackRiskScore r.current_stock r.avg_daily_demand r.supplier_lead_time
  let pred := fallbackPrediction score
  { product_id := r.product_id
    current_stock := r.current_stock
    avg_daily_demand := r.avg_daily_demand
    minimum_stock_level := r.minimum_stock_level
    risk_score := score
    risk_prediction := pred
    risk_level := if pred = 1 then "High" else "Low"
    risk_category := categorizeRisk score }

/-- Assessment of one row when the model path returned label `pred` and
probability `prob` for it (predictor.py lines 211-215). -/
def assessRowModel (r : ProductRow) (pred : ℕ) (prob : ℚ) : Assessment :=
  { product_id := r.product_id
    current_stock := r.current_stock
    avg_daily_demand := r.avg_daily_demand
    minimum_stock_level := r.minimum_stock_level
    risk_score := prob
    risk_prediction := pred
    risk_level := if pred = 1 then "High" else "Low"
    risk_category := categorizeRisk prob }

/-- An exception escaping the model-inference path of `predict_batch`
(the `except Exception` at predictor.py line 196). -/
inductive ModelPathError
  | failure (msg : String)
deriving DecidableEq, Repr

/-- Sorting of the result frame by `risk_score` descending
(`results.sort_values('risk_score', ascending=False)`, predictor.py line 219). -/
def sortByRiskDesc (l : List Assessment) : List Assessment :=
  l.insertionSort (fun a b => a.risk_score ≥ b.risk_score)

/-- The `predict_batch` control flow (predictor.py lines 183-219): try the
model path; on any exception, compute the heuristic fallback row by row;
either way attach the scores and sort descending by `risk_score`.  The model
path is a parameter, so the theorems can quantify over its behaviour. -/
def predictBatch (modelPath : List ProductRow → Except ModelPathError (List (ℕ × ℚ)))
    (rows : List ProductRow) : List Assessment :=
  match modelPath rows with
  | .ok pp => sortByRiskDesc (List.zipWith (fun r (p : ℕ × ℚ) => assessRowModel r p.1 p.2) rows pp)
  | .error _ => sortByRiskDesc (rows.map assessRowFallback)

/-- Optional-field product dictionary handed to `predict_single_product`;
`none` models an absent key, read through `.get(key, default)`. -/
structure ProductDict where
  product_id : Option String
  current_stock : Option ℚ
  avg_daily_demand : Option ℚ
  supplier_lead_time : Option ℚ
  minimum_stock_level : Option ℚ
deriving DecidableEq, Repr

/-- The fallback branch of `predict_single_product` (predictor.py lines
147-152), with the dictionary defaults `current_stock=0`,
`avg_daily_demand=1`, `supplier_lead_time=7`. -/
def predictSingleFallbackScore (p : ProductDict) : ℚ :=
  let stock_days := (p.current_stock.getD 0) / max (p.avg_daily_demand.getD 1) 1
  let lead_time := p.supplier_lead_time.getD 7
  max 0 (min 1 (1 - stock_days / (lead_time * 2)))

end StockSense

namespace StockSense

lemma sortByRiskDesc_perm (l : List Assessment) : (sortByRiskDesc l).Perm l :=
  List.perm_insertionSort _ l

lemma sortByRiskDesc_sorted (l : List Assessment) :
    ((sortByRiskDesc l).map (·.risk_score)).Sorted (· ≥ ·) := by
  rw [List.Sorted, List.pairwise_map]
  haveI : IsTotal Assessment (fun a b => a.risk_score ≥ b.risk_score) :=
    ⟨fun a b => le_total b.risk_score a.risk_score⟩
  haveI : IsTrans Assessment (fun a b => a.risk_score ≥ b.risk_score) :=
    ⟨fun _ _ _ hab hbc => le_trans hbc hab⟩
  exact List.sorted_insertionSort _ l

lemma fallbackRiskScore_mem_unit (s a l : ℚ) :
    0 ≤ fallbackRiskScore s a l ∧ fallbackRiskScore s a l ≤ 1 := by
  unfold fallbackRiskScore
  exact ⟨le_max_left _ _, max_le (by norm_num) (min_le_left _ _)⟩

lemma fallbackPrediction_eq_one (q : ℚ) : fallbackPrediction q = 1 ↔ 0.5 < q := by
  unfold fallbackPrediction
  split_ifs with h <;> simp [h]

/-- C1: on any batch of valid numeric rows, if the model path raises during
`predict_batch` the service still returns exactly one assessment per input
row (the fallback is total, so the exception is not surfaced), and every
returned `risk_score` lies in `[0, 1]`. -/
theorem predict_batch_fallback_guarantee
    (modelPath : List ProductRow → Except ModelPathError (List (ℕ × ℚ)))
    (rows : List ProductRow) (e : ModelPathError)
    (hfail : modelPath rows = .error e)
    (_hvalid : ∀ r ∈ rows, 0 < r.supplier_lead_time) :
    (predictBatch modelPath rows).length = rows.length ∧
    ∀ a ∈ predictBatch modelPath rows, 0 ≤ a.risk_score ∧ a.risk_score ≤ 1 := by
  have hmatch : predictBatch modelPath rows = sortByRiskDesc (rows.map assessRowFallback) := by
    simp [predictBatch, hfail]
  constructor
  · rw [hmatch, (sortByRiskDesc_perm _).length_eq, List.length_map]
  · intro a ha
    rw [hmatch] at ha
    have hmem : a ∈ rows.map assessRowFallback := (sortByRiskDesc_perm _).mem_iff.mp ha
    obtain ⟨r, hr, rfl⟩ := List.mem_map.mp hmem
    simpa [assessRowFallback] using
      fallbackRiskScore_mem_unit r.current_stock r.avg_daily_demand r.supplier_lead_time

/-- Witness for C1: a concrete one-row batch whose model path always raises. -/
theorem predict_batch_fallback_guarantee_witness :
    (predictBatch (fun _ => .error (.failure "model path failed")) [⟨"A", 5, 5, 7, 20⟩]).length
      = [(⟨"A", 5, 5, 7, 20⟩ : ProductRow)].length ∧
    ∀ a ∈ predictBatch (fun _ => .error (.failure "model path failed")) [⟨"A", 5, 5, 7, 20⟩],
      0 ≤ a.risk_score ∧ a.risk_score ≤ 1 :=
  predict_batch_fallback_guarantee _ _ (.failure "model path failed") rfl (by decide)

/-- C2: the heuristic fallback of `predict_single_product` and
`predict_batch` computes `stock_days = current_stock / max(avg_daily_demand, 1)`
and `risk_score = clamp(1 - stock_days / (2 * supplier_lead_time), 0, 1)`, and
flags high risk iff `risk_score > 0.5`; the scenario
`current_stock=5, avg_daily_demand=5, supplier_lead_time=7` yields
`risk_score = 13/14` and the High Risk category. -/
theorem heuristic_fallback_formula :
    (∀ (pid : String) (s a l m : ℚ),
       (assessRowFallback ⟨pid, s, a, l, m⟩).risk_score
          = max 0 (min 1 (1 - (s / max a 1) / (2 * l))) ∧
       predictSingleFallbackScore ⟨some pid, some s, some a, some l, some m⟩
          = (assessRowFallback ⟨pid, s, a, l, m⟩).risk_score ∧
       ((assessRowFallback ⟨pid, s, a, l, m⟩).risk_prediction = 1 ↔
        0.5 < (assessRowFallback ⟨pid, s, a, l, m⟩).risk_score)) ∧
    (assessRowFallback ⟨"P1", 5, 5, 7, 20⟩).risk_score = 13/14 ∧
    (assessRowFallback ⟨"P1", 5, 5, 7, 20⟩).risk_category = "High Risk" ∧
    (assessRowFallback ⟨"P1", 5, 5, 7, 20⟩).risk_prediction = 1 := by
  refine ⟨fun pid s a l m => ⟨?_, ?_, ?_⟩,
    by norm_num [assessRowFallback, fallbackRiskScore, fallbackStockDays, max_def, min_def],
    by norm_num [assessRowFallback, fallbackRiskScore, fallbackStockDays, categorizeRisk,
      max_def, min_def],
    by norm_num [assessRowFallback, fallbackRiskScore, fallbackStockDays, fallbackPrediction,
      max_def, min_def]⟩
  · simp only [assessRowFallback, fallbackRiskScore, fallbackStockDays]
    ring_nf
  · simp [assessRowFallback, fallbackRiskScore, fallbackStockDays, predictSingleFallbackScore]
  · simp only [assessRowFallback]
    exact fallbackPrediction_eq_one _

/-- C3: `_categorize_risk` returns exactly one of the three labels, with
Low Risk iff `risk_score < 0.3`, Medium Risk iff `0.3 ≤ risk_score < 0.7`,
and High Risk otherwise. -/
theorem categorize_risk_trichotomy (s : ℚ) :
    (categorizeRisk s = "Low Risk" ∨ categorizeRisk s = "Medium Risk" ∨
      categorizeRisk s = "High Risk") ∧
    (categorizeRisk s = "Low Risk" ↔ s < 0.3) ∧
    (categorizeRisk s = "Medium Risk" ↔ 0.3 ≤ s ∧ s < 0.7) ∧
    (categorizeRisk s = "High Risk" ↔ 0.7 ≤ s) := by
  unfold categorizeRisk
  split_ifs with h1 h2 <;>
    refine ⟨by tauto, ?_, ?_, ?_⟩ <;> (simp_all; try linarith)

/-- C5: every `predict_batch` output is sorted in descending order of
`risk_score`; three products with heuristic scores `0.2, 0.9, 0.5` come
back in the order `0.9, 0.5, 0.2`. -/
theorem predict_batch_sorted_descending :
    (∀ (modelPath : List ProductRow → Except ModelPathError (List (ℕ × ℚ)))
       (rows : List ProductRow),
       ((predictBatch modelPath rows).map (·.risk_score)).Sorted (· ≥ ·)) ∧
    ((predictBatch (fun _ => .error (.failure "no model"))
        [⟨"A", 8, 1, 5, 0⟩, ⟨"B", 1, 1, 5, 0⟩, ⟨"C", 5, 1, 5, 0⟩]).map (·.risk_score))
      = [9/10, 1/2, 1/5] := by
  constructor
  · intro modelPath rows
    unfold predictBatch
    cases modelPath rows <;> exact sortByRiskDesc_sorted _
  · norm_num [predictBatch, sortByRiskDesc, List.insertionSort, List.orderedInsert,
      assessRowFallback, fallbackRiskScore, fallbackStockDays, fallbackPrediction,
      categorizeRisk, max_def, min_def]

end StockSense

namespace StockSense

/-- Classes of a fitted sklearn LabelEncoder: the sorted distinct values of
the column the encoder was fitted on (`fit_transform`, model.py line 94). -/
def labelEncoderFit (col : List String) : List String :=
  col.dedup.insertionSort (fun a b => a ≤ b)

/-- Inference-time categorical encoding of `prepare_features` with
`fit_encoders=False` (model.py lines 96-101): the value is mapped through
`dict(zip(classes_, transform(classes_)))`, which sends the class at
position `i` to `i`, and `fillna(-1)` assigns the sentinel -1 to every
value not among the fitted classes. -/
def encodeWithSentinel (classes : List String) (v : String) : ℤ :=
  if v ∈ classes then (classes.indexOf v : ℤ) else -1

/-- The fitted per-column encoders of `StockSenseModel.encoders`, one per
categorical column of model.py line 88. -/
structure Encoders where
  category : List String
  subcategory : List String
  price_category : List String
  demand_category : List String
deriving DecidableEq, Repr

/-- The categorical fields of one row reaching `prepare_features`. -/
structure CatRow where
  category : String
  subcategory : String
  price_category : String
  demand_category : String
deriving DecidableEq, Repr

/-- The `fit_encoders=False` branch of `prepare_features` (model.py lines
90-101), per row: the four encoded columns together with the encoder state
after the call, which that branch never reassigns. -/
def prepareFeaturesNoFit (enc : Encoders) (r : CatRow) : (ℤ × ℤ × ℤ × ℤ) × Encoders :=
  ((encodeWithSentinel enc.category r.category,
    encodeWithSentinel enc.subcategory r.subcategory,
    encodeWithSentinel enc.price_category r.price_category,
    encodeWithSentinel enc.demand_category r.demand_category), enc)

/-- The mutable fields of `StockSenseModel` (model.py lines 27-32) that the
train / load / predict protocol reads.  The fitted sklearn classifier is
abstracted as its `predict_proba` function on the encoded categorical
features; the optional scaler as a function on feature values. -/
structure ModelState where
  model : Option ((ℤ × ℤ × ℤ × ℤ) → ℚ)
  scaler : Option (ℚ → ℚ)
  encoders : Encoders
  feature_names : List String
  is_trained : Bool

/-- The state built by `StockSenseModel.__init__` (model.py lines 27-32). -/
def modelInit : ModelState :=
  { model := none, scaler := none, encoders := ⟨[], [], [], []⟩
    feature_names := [], is_trained := false }

/-- Errors of `StockSenseModel.predict`: the `ValueError("Model must be
trained before making predictions")` of model.py lines 214-215 (the spec's
`NotTrainedError`), or any later exception of the inference body. -/
inductive PredictError
  | notTrained
  | bodyFailure (msg : String)
deriving DecidableEq, Repr

/-- The `StockSenseModel.predict` control flow (model.py lines 204-231):
raise `NotTrainedError` when `is_trained` is false, otherwise apply the
fitted encoders (never refitting them) and the classifier to every row. -/
def modelPredict (m : ModelState) (rows : List CatRow) : Except PredictError (List ℚ) :=
  if m.is_trained = false then .error .notTrained
  else
    match m.model with
    | some clf => .ok (rows.map (fun r => clf (prepareFeaturesNoFit m.encoders r).1))
    | none => .error (.bodyFailure "classifier missing")

/-- The state transition of `StockSenseModel.train` (model.py lines
123-202): fit one encoder per categorical column from the training rows,
install the fitted classifier (the sklearn fit itself is abstracted as the
parameter `fittedClf`), and mark the model trained (line 196). -/
def modelTrain (m : ModelState) (rows : List CatRow)
    (fittedClf : (ℤ × ℤ × ℤ × ℤ) → ℚ) : ModelState :=
  { m with
    encoders :=
      { category := labelEncoderFit (rows.map (·.category))
        subcategory := labelEncoderFit (rows.map (·.subcategory))
        price_category := labelEncoderFit (rows.map (·.price_category))
        demand_category := labelEncoderFit (rows.map (·.demand_category)) }
    model := some fittedClf
    is_trained := true }

/-- The serialized bundle written by `save_model` (model.py lines 264-270). -/
structure ModelArtifact where
  model : (ℤ × ℤ × ℤ × ℤ) → ℚ
  scaler : Option (ℚ → ℚ)
  encoders : Encoders
  feature_names : List String

/-- The state transition of `StockSenseModel.load_model` (model.py lines
275-290): restore every component and set `is_trained = True`. -/
def modelLoad (_m : ModelState) (a : ModelArtifact) : ModelState :=
  { model := some a.model, scaler := a.scaler, encoders := a.encoders
    feature_names := a.feature_names, is_trained := true }

/-- The `demand_variability` column of `prepare_prediction_data`
(predictor.py line 87): plain division, no guard. -/
def prep_demand_variability (demand_std avg_daily_demand : ℚ) : ℚ :=
  demand_std / avg_daily_demand

/-- The `stock_coverage_days` column of `prepare_prediction_data`
(predictor.py line 88): plain division by `avg_daily_demand`, no guard. -/
def prep_stock_coverage_days (current_stock avg_daily_demand : ℚ) : ℚ :=
  current_stock / avg_daily_demand

/-- The `stock_health_score` column of `engineer_features` (model.py lines
68-70): `stock_coverage_days / supplier_lead_time`. -/
def stock_health_score (stock_coverage_days supplier_lead_time : ℚ) : ℚ :=
  stock_coverage_days / supplier_lead_time

/-- Modelled from the spec words of C6 only, for comparison with the code:
`stock_coverage_days` with the claimed guard treating
`avg_daily_demand < 1` as `1`. -/
def spec_guarded_coverage (current_stock avg_daily_demand : ℚ) : ℚ :=
  current_stock / max avg_daily_demand 1

end StockSense

namespace StockSense

/-- C4: inference-time feature preparation never refits the encoders, maps a
categorical value unseen at fit time to the sentinel -1 instead of raising,
and a trained model still produces a risk score for such a row. -/
theorem unseen_category_sentinel (enc : Encoders) (r : CatRow) :
    (prepareFeaturesNoFit enc r).2 = enc ∧
    (r.category ∉ enc.category → (prepareFeaturesNoFit enc r).1.1 = -1) ∧
    (r.subcategory ∉ enc.subcategory → (prepareFeaturesNoFit enc r).1.2.1 = -1) ∧
    (r.price_category ∉ enc.price_category → (prepareFeaturesNoFit enc r).1.2.2.1 = -1) ∧
    (r.demand_category ∉ enc.demand_category → (prepareFeaturesNoFit enc r).1.2.2.2 = -1) ∧
    (∀ (m : ModelState), m.is_trained = true → m.model.isSome = true →
       ∃ scores, modelPredict m [r] = .ok scores ∧ scores.length = 1) := by
  refine ⟨rfl, fun h => ?_, fun h => ?_, fun h => ?_, fun h => ?_, ?_⟩
  · simp [prepareFeaturesNoFit, encodeWithSentinel, h]
  · simp [prepareFeaturesNoFit, encodeWithSentinel, h]
  · simp [prepareFeaturesNoFit, encodeWithSentinel, h]
  · simp [prepareFeaturesNoFit, encodeWithSentinel, h]
  · intro m htr hsome
    obtain ⟨clf, hclf⟩ := Option.isSome_iff_exists.mp hsome
    refine ⟨[clf (prepareFeaturesNoFit m.encoders r).1], ?_, rfl⟩
    simp [modelPredict, htr, hclf]

/-- Witness for C4: the value Toys is unseen by an encoder fitted on
Electronics and General; it encodes to -1 and the encoders are unchanged. -/
theorem unseen_category_sentinel_witness :
    (prepareFeaturesNoFit ⟨["Electronics", "General"], ["Phones"], ["Low", "Medium"], ["Low"]⟩
       ⟨"Toys", "Phones", "Medium", "Low"⟩).1.1 = -1 ∧
    (prepareFeaturesNoFit ⟨["Electronics", "General"], ["Phones"], ["Low", "Medium"], ["Low"]⟩
       ⟨"Toys", "Phones", "Medium", "Low"⟩).2
      = ⟨["Electronics", "General"], ["Phones"], ["Low", "Medium"], ["Low"]⟩ := by
  obtain ⟨h1, h2, -⟩ := unseen_category_sentinel
    ⟨["Electronics", "General"], ["Phones"], ["Low", "Medium"], ["Low"]⟩
    ⟨"Toys", "Phones", "Medium", "Low"⟩
  exact ⟨h2 (by decide), h1⟩

/-- C6 counterexample: at `current_stock = 10` and `avg_daily_demand = 1/2`
the code computes `stock_coverage_days = 20` by plain division (predictor.py
line 88), while the claimed guarded formula gives 10, so the claimed guard
is not in the code. -/
theorem coverage_guard_counterexample :
    prep_stock_coverage_days 10 (1/2) = 20 ∧
    spec_guarded_coverage 10 (1/2) = 10 ∧
    prep_stock_coverage_days 10 (1/2) ≠ spec_guarded_coverage 10 (1/2) := by
  norm_num [prep_stock_coverage_days, spec_guarded_coverage, max_def]

/-- C6 amended: feature preparation computes
`stock_coverage_days = current_stock / avg_daily_demand` with no guard and
`stock_health_score = stock_coverage_days / supplier_lead_time`; the guarded
formula of the spec agrees with the code only on records with
`avg_daily_demand ≥ 1`. -/
theorem coverage_unguarded (stock avg lead : ℚ) (havg : 1 ≤ avg) :
    prep_stock_coverage_days stock avg = spec_guarded_coverage stock avg ∧
    stock_health_score (prep_stock_coverage_days stock avg) lead = stock / avg / lead := by
  unfold prep_stock_coverage_days spec_guarded_coverage stock_health_score
  rw [max_eq_left havg]
  exact ⟨rfl, rfl⟩

/-- Witness for the amended C6 at `stock = 10`, `avg = 2`, `lead = 5`. -/
theorem coverage_unguarded_witness :
    prep_stock_coverage_days 10 2 = spec_guarded_coverage 10 2 ∧
    stock_health_score (prep_stock_coverage_days 10 2) 5 = 10 / 2 / 5 :=
  coverage_unguarded 10 2 5 (by norm_num)

/-- C8: `predict` raises the not-trained error exactly on states never
marked trained; the states produced by `train` and by `load_model` are
marked trained and `predict` on them never raises that error; the initial
state is untrained. -/
theorem predict_not_trained (m : ModelState) (rows : List CatRow) :
    (m.is_trained = false → modelPredict m rows = .error .notTrained) ∧
    (∀ (d : List CatRow) (clf : (ℤ × ℤ × ℤ × ℤ) → ℚ),
       modelPredict (modelTrain m d clf) rows ≠ .error .notTrained) ∧
    (∀ a : ModelArtifact, modelPredict (modelLoad m a) rows ≠ .error .notTrained) ∧
    modelInit.is_trained = false := by
  refine ⟨fun h => by simp [modelPredict, h], ?_, ?_, rfl⟩
  · intro d clf
    simp [modelPredict, modelTrain]
  · intro a
    simp [modelPredict, modelLoad]

/-- Witness for C8: the freshly initialized model raises the not-trained
error on an empty batch. -/
theorem predict_not_trained_witness :
    modelPredict modelInit [] = .error .notTrained :=
  (predict_not_trained modelInit []).1 rfl

end StockSense

namespace StockSense

/-- One cell of a pandas frame: a finite numeric value, a non-finite value
(NaN, or the result of a zero-denominator float division), or a
categorical label. -/
inductive Cell
  | num (q : ℚ)
  | nan
  | cat (s : String)
deriving DecidableEq, Repr

/-- A pandas frame as an association list from column name to cells; the
first binding of a name is the current column, as assignment prepends. -/
abbrev Table := List (String × List Cell)

/-- The error raised when code reads a structurally absent column (the
pandas `KeyError`; the spec taxonomy calls it `FeatureError`). -/
inductive FeatureError
  | missingColumn (name : String)
deriving DecidableEq, Repr

/-- Column access `df[name]`: the column when present, otherwise the
missing-column error. -/
def getCol (t : Table) (name : String) : Except FeatureError (List Cell) :=
  match t.lookup name with
  | some c => .ok c
  | none => .error (.missingColumn name)

/-- Series.fillna: replaces only non-finite cells. -/
def cellFillna (d : ℚ) : Cell → Cell
  | .nan => .num d
  | c => c

/-- pd.cut with bin edges `(0, b1], (b1, b2], (b2, b3], (b3, ∞)` (model.py
lines 50-57): values at or below the leftmost edge, non-numeric and
non-finite cells fall outside every bin and become NaN. -/
def cutBins (b1 b2 b3 : ℚ) (l1 l2 l3 l4 : String) : Cell → Cell
  | .num q =>
      if q ≤ 0 then .nan
      else if q ≤ b1 then .cat l1
      else if q ≤ b2 then .cat l2
      else if q ≤ b3 then .cat l3
      else .cat l4
  | _ => .nan

/-- Elementwise float division of two cells; a non-finite operand, a
non-numeric operand or a zero denominator yields a non-finite result. -/
def cellDiv : Cell → Cell → Cell
  | .num a, .num b => if b = 0 then .nan else .num (a / b)
  | _, _ => .nan

/-- Elementwise comparison flag `(series > threshold).astype(int)`: a
comparison against a non-finite or non-numeric cell is False, so 0. -/
def cellGtFlag : Cell → Cell → Cell
  | .num a, .num b => if a > b then .num 1 else .num 0
  | _, _ => .num 0

/-- Series.median: the median of the finite values, skipping NaN (pandas
default); NaN when no finite value exists. -/
def seriesMedian (col : List Cell) : Cell :=
  let nums := col.filterMap (fun c => match c with | .num q => some q | _ => none)
  if nums.length = 0 then .nan
  else
    let sorted := nums.insertionSort (fun a b => a ≤ b)
    if nums.length % 2 = 1 then .num (sorted.getD (nums.length / 2) 0)
    else .num ((sorted.getD (nums.length / 2 - 1) 0 + sorted.getD (nums.length / 2) 0) / 2)

/-- `StockSenseModel.engineer_features` (model.py lines 34-72): each
transformation reads its raw column — raising the missing-column error if
it is structurally absent — and the new columns are prepended (pandas
column assignment replaces any earlier binding). -/
def engineerFeatures (data : Table) : Except FeatureError Table := do
  let dv ← getCol data "demand_variability"
  let price ← getCol data "price"
  let avg ← getCol data "avg_daily_demand"
  let outs ← getCol data "total_stockouts"
  let lead ← getCol data "supplier_lead_time"
  let seasonal ← getCol data "seasonal_factor"
  let coverage ← getCol data "stock_coverage_days"
  let med := seriesMedian avg
  .ok ([("demand_variability", dv.map (cellFillna 0)),
        ("price_category", price.map (cutBins 20 100 500 "Low" "Medium" "High" "Premium")),
        ("demand_category", avg.map (cutBins 10 50 100 "Low" "Medium" "High" "Very High")),
        ("stockout_rate", outs.map (fun c => cellDiv c (.num 365))),
        ("is_fast_moving", avg.map (fun c => cellGtFlag c med)),
        ("lead_time_risk", lead.map (fun c => cellGtFlag c (.num 7))),
        ("is_seasonal", seasonal.map (fun c => cellGtFlag c (.num 1.5))),
        ("stock_health_score", List.zipWith cellDiv coverage lead)] ++ data)

/-- The raw columns `engineer_features` reads. -/
def requiredColumns : List String :=
  ["demand_variability", "price", "avg_daily_demand", "total_stockouts",
   "supplier_lead_time", "seasonal_factor", "stock_coverage_days"]

lemma except_bind_ok {α β ε : Type} {x : Except ε α} {f : α → Except ε β} {b : β}
    (h : x.bind f = .ok b) : ∃ a, x = .ok a ∧ f a = .ok b := by
  cases x with
  | ok a => exact ⟨a, rfl, h⟩
  | error e => simp [Except.bind] at h

lemma getCol_ok_isSome {t : Table} {n : String} {v : List Cell}
    (h : getCol t n = .ok v) : (t.lookup n).isSome := by
  unfold getCol at h
  cases hl : t.lookup n with
  | some c => simp
  | none => rw [hl] at h; exact absurd h (by simp)

/-- C7: the Feature Engine succeeds exactly when every required raw column
is structurally present; in particular it raises the missing-column
`FeatureError` when one is absent, and does not raise when a column is
present but empty. -/
theorem engineer_features_error_iff (data : Table) :
    (∃ out, engineerFeatures data = .ok out) ↔
      ∀ c ∈ requiredColumns, (data.lookup c).isSome := by
  constructor
  · rintro ⟨out, hout⟩
    unfold engineerFeatures at hout
    obtain ⟨dv, hdv, hout⟩ := except_bind_ok hout
    obtain ⟨price, hp, hout⟩ := except_bind_ok hout
    obtain ⟨avg, ha, hout⟩ := except_bind_ok hout
    obtain ⟨outs, ho, hout⟩ := except_bind_ok hout
    obtain ⟨lead, hl, hout⟩ := except_bind_ok hout
    obtain ⟨seasonal, hs, hout⟩ := except_bind_ok hout
    obtain ⟨coverage, hc, hout⟩ := except_bind_ok hout
    intro c hc2
    fin_cases hc2
    · exact getCol_ok_isSome hdv
    · exact getCol_ok_isSome hp
    · exact getCol_ok_isSome ha
    · exact getCol_ok_isSome ho
    · exact getCol_ok_isSome hl
    · exact getCol_ok_isSome hs
    · exact getCol_ok_isSome hc
  · intro h
    obtain ⟨c1, h1⟩ := Option.isSome_iff_exists.mp (h "demand_variability" (by simp [requiredColumns]))
    obtain ⟨c2, h2⟩ := Option.isSome_iff_exists.mp (h "price" (by simp [requiredColumns]))
    obtain ⟨c3, h3⟩ := Option.isSome_iff_exists.mp (h "avg_daily_demand" (by simp [requiredColumns]))
    obtain ⟨c4, h4⟩ := Option.isSome_iff_exists.mp (h "total_stockouts" (by simp [requiredColumns]))
    obtain ⟨c5, h5⟩ := Option.isSome_iff_exists.mp (h "supplier_lead_time" (by simp [requiredColumns]))
    obtain ⟨c6, h6⟩ := Option.isSome_iff_exists.mp (h "seasonal_factor" (by simp [requiredColumns]))
    obtain ⟨c7, h7⟩ := Option.isSome_iff_exists.mp (h "stock_coverage_days" (by simp [requiredColumns]))
    refine ⟨[("demand_variability", c1.map (cellFillna 0)),
             ("price_category", c2.map (cutBins 20 100 500 "Low" "Medium" "High" "Premium")),
             ("demand_category", c3.map (cutBins 10 50 100 "Low" "Medium" "High" "Very High")),
             ("stockout_rate", c4.map (fun c => cellDiv c (.num 365))),
             ("is_fast_moving", c3.map (fun c => cellGtFlag c (seriesMedian c3))),
             ("lead_time_risk", c5.map (fun c => cellGtFlag c (.num 7))),
             ("is_seasonal", c6.map (fun c => cellGtFlag c (.num 1.5))),
             ("stock_health_score", List.zipWith cellDiv c7 c5)] ++ data, ?_⟩
    simp only [engineerFeatures, getCol, h1, h2, h3, h4, h5, h6, h7]
    rfl

/-- Witness for C7: a table whose required columns are all present but
empty passes, and the empty table (every column absent) fails. -/
theorem engineer_features_error_iff_witness :
    (∃ out, engineerFeatures (requiredColumns.map (fun c => (c, ([] : List Cell)))) = .ok out) ∧
    ¬(∃ out, engineerFeatures ([] : Table) = .ok out) := by
  constructor
  · exact (engineer_features_error_iff _).mpr (by decide)
  · intro h
    simpa using (engineer_features_error_iff ([] : Table)).mp h "price" (by decide)

end StockSense

namespace StockSense

/-- The risk-distribution counts of `generate_dashboard_data` over the
`predict_batch` output: `high` is the sum of the 0/1 `risk_prediction`
column, `medium` the count of `risk_score` in the inclusive interval of
`Series.between(0.3, 0.7)`, and `low` is `total - high - medium`; the
counts are integers because `low` is a subtraction. -/
def riskDistribution (modelPath : List ProductRow → Except ModelPathError (List (ℕ × ℚ)))
    (rows : List ProductRow) : ℤ × ℤ × ℤ :=
  let predictions := predictBatch modelPath rows
  let total : ℤ := predictions.length
  let high : ℤ := ((predictions.map (·.risk_prediction)).sum : ℕ)
  let medium : ℤ :=
    (predictions.filter (fun a => decide (0.3 ≤ a.risk_score) && decide (a.risk_score ≤ 0.7))).length
  (high, medium, total - high - medium)

/-- C9 (code bug): one product whose heuristic risk score is 0.6 is counted
both in the High bucket (the `risk_prediction` column, threshold 0.5) and
in the Medium bucket (inclusive `between(0.3, 0.7)`), driving the Low count
to -1, although its own `risk_category` is Medium Risk — the three counts
are not the partition at boundaries 0.3 and 0.7 that the claim states. -/
theorem dashboard_distribution_negative_count :
    riskDistribution (fun _ => .error (.failure "no model")) [⟨"A", 4, 1, 5, 0⟩]
      = (1, 1, -1) ∧
    (assessRowFallback ⟨"A", 4, 1, 5, 0⟩).risk_score = 3/5 ∧
    (assessRowFallback ⟨"A", 4, 1, 5, 0⟩).risk_category = "Medium Risk" := by
  refine ⟨?_, ?_, ?_⟩
  · norm_num [riskDistribution, predictBatch, sortByRiskDesc, List.insertionSort,
      List.orderedInsert, assessRowFallback, fallbackRiskScore, fallbackStockDays,
      fallbackPrediction, categorizeRisk, max_def, min_def]
  · norm_num [assessRowFallback, fallbackRiskScore, fallbackStockDays, max_def, min_def]
  · norm_num [assessRowFallback, fallbackRiskScore, fallbackStockDays, categorizeRisk,
      max_def, min_def]

end StockSense

namespace StockSense

/-- One row of the sales_history frame (predictor.py lines 62-66). -/
structure SalesRec where
  product_id : String
  daily_demand : ℚ
  stockout : ℚ
deriving DecidableEq, Repr

/-- One row of an inventory frame handed to `prepare_prediction_data`,
restricted to the columns the demand aggregation touches; the frame has no
aggregate columns of its own, as in the claim. -/
structure InvRow where
  product_id : String
  current_stock : ℚ
deriving DecidableEq, Repr

/-- NaN-propagating float division on `Option ℚ` cells: a NaN operand or a
zero denominator (a non-finite float result) gives `none`. -/
def npDiv : Option ℚ → Option ℚ → Option ℚ
  | some a, some b => if b = 0 then none else some (a / b)
  | _, _ => none

/-- Mean of a demand group (`groupby('product_id').agg('mean')`). -/
def groupMean (l : List ℚ) : Option ℚ :=
  if l.length = 0 then none else some (l.sum / l.length)

/-- Sample dispersion of a demand group (the `'std'` aggregate, ddof = 1):
NaN for fewer than two observations.  The pandas std is the square root of
this value; the square root is irrational in general and no claim below
uses its finite value, so the variance is recorded — it is NaN exactly when
the std is. -/
def groupVar (l : List ℚ) : Option ℚ :=
  if l.length < 2 then none
  else some ((l.map (fun x => (x - l.sum / l.length) ^ 2)).sum / (l.length - 1))

/-- Maximum of a demand group (the `'max'` aggregate). -/
def groupMax (l : List ℚ) : Option ℚ :=
  match l with
  | [] => none
  | x :: xs => some (xs.foldl max x)

/-- The four aggregate columns of `sales_agg` after flattening
(predictor.py lines 63-72). -/
structure SalesAgg where
  avg_daily_demand : Option ℚ
  demand_std : Option ℚ
  max_daily_demand : Option ℚ
  total_stockouts : Option ℚ
deriving DecidableEq, Repr

/-- The groupby aggregation followed by the left join onto one inventory
row (`df.merge(sales_agg, on='product_id', how='left')`, predictor.py line
74): a product with no sales rows is absent from the grouped frame, so the
join fills all four aggregate columns with NaN. -/
def joinSalesAgg (sales : List SalesRec) (pid : String) : SalesAgg :=
  let grp := sales.filter (fun s => s.product_id == pid)
  let demands := grp.map (·.daily_demand)
  let outs := grp.map (·.stockout)
  if demands.isEmpty then ⟨none, none, none, none⟩
  else ⟨groupMean demands, groupVar demands, groupMax demands, some outs.sum⟩

/-- The demand-related columns of one prepared row (predictor.py lines
59-89). -/
structure PreparedRow where
  product_id : String
  current_stock : ℚ
  avg_daily_demand : Option ℚ
  demand_std : Option ℚ
  max_daily_demand : Option ℚ
  total_stockouts : Option ℚ
  demand_variability : Option ℚ
  stock_coverage_days : Option ℚ
  stockout_rate : Option ℚ
deriving DecidableEq, Repr

/-- One row of `prepare_prediction_data` when sales history was supplied:
the merge created the aggregate columns, so the `not in df.columns` default
branches (predictor.py lines 77-84) do not run, and the derived columns of
lines 87-89 propagate NaN. -/
def prepareOneWithSales (sales : List SalesRec) (r : InvRow) : PreparedRow :=
  let agg := joinSalesAgg sales r.product_id
  { product_id := r.product_id
    current_stock := r.current_stock
    avg_daily_demand := agg.avg_daily_demand
    demand_std := agg.demand_std
    max_daily_demand := agg.max_daily_demand
    total_stockouts := agg.total_stockouts
    demand_variability := npDiv agg.demand_std agg.avg_daily_demand
    stock_coverage_days := npDiv (some r.current_stock) agg.avg_daily_demand
    stockout_rate := npDiv agg.total_stockouts (some 365) }

/-- One row of `prepare_prediction_data` when no sales history was
supplied: the aggregate columns are absent, so the defaults
`avg_daily_demand=10`, `demand_std=2`, `max_daily_demand=2*avg`,
`total_stockouts=0` of predictor.py lines 77-84 are inserted. -/
def prepareOneDefaults (r : InvRow) : PreparedRow :=
  { product_id := r.product_id
    current_stock := r.current_stock
    avg_daily_demand := some 10
    demand_std := some 2
    max_daily_demand := some 20
    total_stockouts := some 0
    demand_variability := npDiv (some 2) (some 10)
    stock_coverage_days := npDiv (some r.current_stock) (some 10)
    stockout_rate := npDiv (some 0) (some 365) }

/-- The demand part of `prepare_prediction_data` (predictor.py lines
59-89) over a whole inventory frame. -/
def preparePredictionDemand (inv : List InvRow) (sales : Option (List SalesRec)) :
    List PreparedRow :=
  match sales with
  | some s => inv.map (prepareOneWithSales s)
  | none => inv.map prepareOneDefaults

/-- C10: with a supplied non-empty sales history, an inventory product
absent from it receives NaN for all four joined aggregate columns — the
default values are not applied, since defaulting only triggers when the
whole column is absent — and its derived `demand_variability` and
`stock_coverage_days` are NaN as well. -/
theorem left_join_missing_product_nan (inv : List InvRow) (sales : List SalesRec)
    (r : InvRow) (hmem : r ∈ inv) (_hne : sales ≠ [])
    (habs : ∀ s ∈ sales, s.product_id ≠ r.product_id) :
    prepareOneWithSales sales r ∈ preparePredictionDemand inv (some sales) ∧
    (prepareOneWithSales sales r).avg_daily_demand = none ∧
    (prepareOneWithSales sales r).demand_std = none ∧
    (prepareOneWithSales sales r).max_daily_demand = none ∧
    (prepareOneWithSales sales r).total_stockouts = none ∧
    (prepareOneWithSales sales r).demand_variability = none ∧
    (prepareOneWithSales sales r).stock_coverage_days = none := by
  have hfilter : sales.filter (fun s => s.product_id == r.product_id) = [] := by
    rw [List.filter_eq_nil_iff]
    intro s hs
    simpa using habs s hs
  refine ⟨List.mem_map_of_mem _ hmem, ?_⟩
  simp [prepareOneWithSales, joinSalesAgg, hfilter, npDiv]

/-- Witness for C10: product A is in the inventory but only product B has
sales rows; all of A's aggregate and derived demand columns are NaN. -/
theorem left_join_missing_product_nan_witness :
    prepareOneWithSales [⟨"B", 3, 0⟩] ⟨"A", 5⟩
        ∈ preparePredictionDemand [⟨"A", 5⟩] (some [⟨"B", 3, 0⟩]) ∧
    (prepareOneWithSales [⟨"B", 3, 0⟩] ⟨"A", 5⟩).avg_daily_demand = none ∧
    (prepareOneWithSales [⟨"B", 3, 0⟩] ⟨"A", 5⟩).demand_std = none ∧
    (prepareOneWithSales [⟨"B", 3, 0⟩] ⟨"A", 5⟩).max_daily_demand = none ∧
    (prepareOneWithSales [⟨"B", 3, 0⟩] ⟨"A", 5⟩).total_stockouts = none ∧
    (prepareOneWithSales [⟨"B", 3, 0⟩] ⟨"A", 5⟩).demand_variability = none ∧
    (prepareOneWithSales [⟨"B", 3, 0⟩] ⟨"A", 5⟩).stock_coverage_days = none :=
  left_join_missing_product_nan [⟨"A", 5⟩] [⟨"B", 3, 0⟩] ⟨"A", 5⟩
    (by decide) (by decide) (by decide)

end StockSense
